import Mathlib

/-!
Verification of the RemoteWateringSystem backend (src/backend/src/main.rs).

The backend is an axum HTTP server with two handlers (GET /status,
POST /water) that share one GpioController behind a tokio Mutex.
We embed the backend shallowly:

* `GpioController` mirrors the Rust enum (the Real variant, gated by the
  gpio cargo feature, holds an output pin whose current level we track as
  a Bool; `into_output_low` binds it low).
* Timed and hardware effects of the async `run_motor` are recorded as an
  explicit event list (`GpioEvent`): set line high, sleep for a duration
  (in whole seconds, as `Duration::from_secs`), set line low.
* Each handler is a pure function of the request ingredients that the
  Rust handler consumes (the X-API-KEY header, the JSON body, the shared
  controller); besides its `Result`, it returns the sequence of
  interactions with the shared mutex-protected state (`HandlerAction`),
  and the water handler also returns the controller it leaves behind.
* The concurrency claim about serialized drives is settled against a
  small labelled transition system (`MutexStep` / `MutexExec`) whose
  tasks execute the post-validation section of the water handler in
  program order (lock, drive-with-sleep, unlock) under a single mutex
  with the semantics of `tokio::sync::Mutex`.
-/

/-- `API_SECRET_KEY` from the configuration block of main.rs. -/
def API_SECRET_KEY : String := "0228"

/-- `WATER_PUMP_PIN` from the configuration block of main.rs. -/
def WATER_PUMP_PIN : Nat := 17

/-- `WATER_DURATION_SECS` from the configuration block of main.rs. -/
def WATER_DURATION_SECS : Nat := 5

/-- The `GpioController` enum: `Real` (cfg feature gpio) holds an
`OutputPin`, of which we track the output level (`true` = high); `Dummy`
holds nothing. -/
inductive GpioController where
  | Real (level : Bool)
  | Dummy
  deriving DecidableEq

/-- Outcome of the startup hardware probe performed by
`GpioController::new`: `Gpio::new()` may fail (`initFail`),
`gpio.get(pin)` may fail (`pinFail`), or both succeed (`ok`). -/
inductive GpioProbe where
  | initFail (e : String)
  | pinFail (e : String)
  | ok
  deriving DecidableEq

/-- `GpioController::new(pin)`.  `gpioFeature` is the cargo feature flag
`gpio` (with the feature off the probing block is compiled out).  On a
successful probe the pin is bound with `into_output_low`, giving
`Real false`; every failure path falls through to `Dummy`. -/
def GpioController.new (gpioFeature : Bool) (probe : GpioProbe) (pin : Nat) :
    GpioController :=
  if gpioFeature then
    match probe with
    | .ok => .Real false
    | .initFail _ => .Dummy
    | .pinFail _ => .Dummy
  else
    .Dummy

/-- Observable effects of `run_motor` on time and hardware:
`pin.set_high()`, `tokio::time::sleep(duration)`, `pin.set_low()`. -/
inductive GpioEvent where
  | setHigh
  | sleep (secs : Nat)
  | setLow
  deriving DecidableEq

deriving instance DecidableEq for Except

/-- What one call to `run_motor` produces: the controller it leaves
behind (`&mut self`), its `Result<String, String>`, and the emitted
hardware/time events in order. -/
structure MotorRun where
  ctrl : GpioController
  result : Except String String
  events : List GpioEvent
  deriving DecidableEq

/-- `GpioController::run_motor(duration)`.  Real: set the line high,
sleep for the duration, set it low, report real execution.  Dummy: only
sleep, report dummy execution.  Both arms return `Ok`. -/
def GpioController.run_motor : GpioController → Nat → MotorRun
  | .Real _, duration =>
      ⟨.Real false,
       .ok ("実機実行: " ++ toString duration ++ "秒間モーターを制御しました"),
       [.setHigh, .sleep duration, .setLow]⟩
  | .Dummy, duration =>
      ⟨.Dummy,
       .ok ("ダミー実行: " ++ toString duration ++ "秒間モーターを制御しました"),
       [.sleep duration]⟩

/-- `GpioController::is_dummy`. -/
def GpioController.is_dummy : GpioController → Bool
  | .Real _ => false
  | .Dummy => true

/-- The `StatusResponse` JSON body. -/
structure StatusResponse where
  status : String
  message : String
  server_mode : String
  controlled_pin : Nat
  deriving DecidableEq

/-- The `WaterRequest` JSON body. -/
structure WaterRequest where
  action : String
  deriving DecidableEq

/-- The `WaterResponse` JSON body. -/
structure WaterResponse where
  status : String
  message : String
  gpio_result : String
  deriving DecidableEq

/-- The `ErrorResponse` JSON body. -/
structure ErrorResponse where
  error : String
  deriving DecidableEq

/-- An error response with its HTTP status code, mirroring the Rust
handlers error type `(StatusCode, Json<ErrorResponse>)`. -/
abbrev HttpError := Nat × ErrorResponse

/-- `validate_api_key(headers)`: the request passes iff the `X-API-KEY`
header is present and equals `API_SECRET_KEY`; otherwise 401. -/
def validate_api_key (apiKey : Option String) : Except HttpError Unit :=
  match apiKey with
  | some key =>
      if key = API_SECRET_KEY then .ok ()
      else .error (401, ⟨"Unauthorized: Invalid API Key"⟩)
  | none => .error (401, ⟨"Unauthorized: Invalid API Key"⟩)

/-- A handler interaction with the shared `AppState.gpio` mutex:
`state.gpio.lock().await` (acquire), the `is_dummy()` read performed
under the guard, the `run_motor` call performed under the guard, and the
release when the guard is dropped. -/
inductive HandlerAction where
  | lockAcquire
  | readIsDummy
  | runMotorCall
  | lockRelease
  deriving DecidableEq

/-- `status_handler`: validate the key, then lock the gpio mutex, read
`is_dummy()` under the lock and build the status body.  Returns the
response together with the sequence of mutex interactions. -/
def status_handler (apiKey : Option String) (gpio : GpioController) :
    Except HttpError StatusResponse × List HandlerAction :=
  match validate_api_key apiKey with
  | .error e => (.error e, [])
  | .ok () =>
      let mode := if gpio.is_dummy then "DUMMY MODE" else "LIVE RPi.GPIO MODE"
      (.ok ⟨"Ready", "Server is ready", mode, WATER_PUMP_PIN⟩,
       [.lockAcquire, .readIsDummy, .lockRelease])

/-- `water_handler`: validate the key, reject any action other than
"start" with 400, otherwise lock the gpio mutex, `run_motor` for
`WATER_DURATION_SECS`, map a driver error to 500, and answer 200.
Returns the response, the sequence of mutex interactions, and the
controller left in the shared state. -/
def water_handler (apiKey : Option String) (payload : WaterRequest)
    (gpio : GpioController) :
    Except HttpError WaterResponse × List HandlerAction × GpioController :=
  match validate_api_key apiKey with
  | .error e => (.error e, [], gpio)
  | .ok () =>
      if payload.action ≠ "start" then
        (.error (400,
           ⟨"Invalid request body. Expected \x7b\x27action\x27: \x27start\x27\x7d"⟩),
         [], gpio)
      else
        let run := gpio.run_motor WATER_DURATION_SECS
        match run.result with
        | .error e =>
            (.error (500, ⟨"GPIO操作エラー: " ++ e⟩),
             [.lockAcquire, .runMotorCall, .lockRelease], run.ctrl)
        | .ok result =>
            (.ok ⟨"success",
                  "水やり (" ++ toString WATER_DURATION_SECS ++ "秒) が完了しました",
                  result⟩,
             [.lockAcquire, .runMotorCall, .lockRelease], run.ctrl)

/-!
## Concurrency model

Many water-handler tasks run concurrently on the tokio runtime, all
sharing `AppState.gpio : tokio::sync::Mutex<GpioController>`.  After a
task has passed authentication and body validation it executes, in
program order: `lock().await`, `run_motor` (whose sleep spans the drive
interval), and the guard drop.  We model this as a labelled transition
system: task `i` moves through the phases below, the single mutex is
represented by `owner`, and `lock().await` can only fire when no task
holds the mutex.
-/

/-- Phase of one validated water-handler task: before the lock, holding
the lock before `run_motor`, inside the timed drive, after the drive but
before the guard drop, and finished. -/
inductive DrivePhase where
  | ready
  | locked
  | driving
  | driven
  | finished
  deriving DecidableEq

/-- Global state of the concurrent system: the phase of every task and
the current holder of the gpio mutex (`none` = unlocked). -/
structure MutexSys where
  phases : Nat → DrivePhase
  owner : Option Nat

/-- Events of the concurrent execution, tagged with the task id:
acquiring the mutex, the start and end of the timed drive, and the mutex
release at guard drop. -/
inductive LockEvent where
  | acquire (i : Nat)
  | driveStart (i : Nat)
  | driveEnd (i : Nat)
  | release (i : Nat)
  deriving DecidableEq

/-- One interleaving step.  `lock().await` fires only when the mutex is
free; the drive runs, and the guard is dropped, only by the task that
holds the mutex; each task follows the water handler program order. -/
inductive MutexStep : MutexSys → LockEvent → MutexSys → Prop where
  | acquire (s : MutexSys) (i : Nat)
      (ho : s.owner = none) (hp : s.phases i = .ready) :
      MutexStep s (.acquire i) ⟨Function.update s.phases i .locked, some i⟩
  | driveStart (s : MutexSys) (i : Nat)
      (ho : s.owner = some i) (hp : s.phases i = .locked) :
      MutexStep s (.driveStart i) ⟨Function.update s.phases i .driving, s.owner⟩
  | driveEnd (s : MutexSys) (i : Nat)
      (ho : s.owner = some i) (hp : s.phases i = .driving) :
      MutexStep s (.driveEnd i) ⟨Function.update s.phases i .driven, s.owner⟩
  | release (s : MutexSys) (i : Nat)
      (ho : s.owner = some i) (hp : s.phases i = .driven) :
      MutexStep s (.release i) ⟨Function.update s.phases i .finished, none⟩

/-- A finite execution: a list of events taking one state to another. -/
inductive MutexExec : MutexSys → List LockEvent → MutexSys → Prop where
  | nil (s : MutexSys) : MutexExec s [] s
  | cons {s s1 s2 : MutexSys} {e : LockEvent} {tr : List LockEvent}
      (hstep : MutexStep s e s1) (hrest : MutexExec s1 tr s2) :
      MutexExec s (e :: tr) s2

/-- The startup state: mutex free, every task still before the lock. -/
def initSys : MutexSys := ⟨fun _ => .ready, none⟩

/-- While some task is inside its drive, the only step the whole system
can take is that same task ending its drive: every other transition
needs the mutex or a phase the driving task occupies. -/
theorem step_of_driving {s s1 : MutexSys} {e : LockEvent} {i : Nat}
    (ho : s.owner = some i) (hp : s.phases i = .driving)
    (hstep : MutexStep s e s1) :
    e = .driveEnd i := by
  cases hstep with
  | acquire j hoj hpj => rw [ho] at hoj; exact absurd hoj (by simp)
  | driveStart j hoj hpj =>
      rw [ho] at hoj
      obtain rfl : j = i := by injection hoj; omega
      rw [hp] at hpj; exact absurd hpj (by simp)
  | driveEnd j hoj hpj =>
      rw [ho] at hoj
      obtain rfl : j = i := by injection hoj; omega
      rfl
  | release j hoj hpj =>
      rw [ho] at hoj
      obtain rfl : j = i := by injection hoj; omega
      rw [hp] at hpj; exact absurd hpj (by simp)

/-- Split an execution of a concatenated trace at the seam. -/
theorem exec_append_split {s s2 : MutexSys} {tr1 tr2 : List LockEvent}
    (h : MutexExec s (tr1 ++ tr2) s2) :
    ∃ s1, MutexExec s tr1 s1 ∧ MutexExec s1 tr2 s2 := by
  induction tr1 generalizing s with
  | nil => exact ⟨s, MutexExec.nil s, h⟩
  | cons e tl ih =>
      cases h with
      | cons hstep hrest =>
          obtain ⟨s1, h1, h2⟩ := ih hrest
          exact ⟨s1, MutexExec.cons hstep h1, h2⟩

/-- From a state in which task `i` is inside its drive, the first
`driveStart` of any task in the remaining trace is preceded by
`driveEnd i`: the very next event of a valid execution must be
`driveEnd i`. -/
theorem driveEnd_before_next_driveStart {s s2 : MutexSys} {i j : Nat}
    {tr1 tr2 : List LockEvent}
    (hexec : MutexExec s (tr1 ++ LockEvent.driveStart j :: tr2) s2)
    (ho : s.owner = some i) (hp : s.phases i = .driving) :
    LockEvent.driveEnd i ∈ tr1 := by
  cases tr1 with
  | nil =>
      cases hexec with
      | cons hstep hrest =>
          have he := step_of_driving ho hp hstep
          exact absurd he (by simp)
  | cons e tl =>
      cases hexec with
      | cons hstep hrest =>
          have he := step_of_driving ho hp hstep
          rw [he]
          exact List.mem_cons_self _ _

/-- Claim C2: drive intervals of two concurrent validated actuation
requests never overlap.  In every execution of the mutex system from the
startup state in which task `i` starts its drive and task `j` starts its
drive later, task `i` has already ended its drive strictly between the
two starts: the second drive begins at or after the first one ends,
enforced solely by the single mutex. -/
theorem water_drives_serialized (tr1 tr2 tr3 : List LockEvent) (i j : Nat)
    (hij : i ≠ j) {s2 : MutexSys}
    (hexec : MutexExec initSys
      (tr1 ++ LockEvent.driveStart i :: (tr2 ++ LockEvent.driveStart j :: tr3))
      s2) :
    LockEvent.driveEnd i ∈ tr2 := by
  obtain ⟨sa, _, hrest⟩ := exec_append_split hexec
  cases hrest with
  | cons hstep hrest2 =>
      cases hstep
      rename_i ho hp
      refine driveEnd_before_next_driveStart hrest2 ho ?_
      exact Function.update_same i DrivePhase.driving sa.phases

/-- Witness for C2: a concrete two-task execution in which task 0
acquires, drives, releases, and task 1 then acquires and starts its
drive; the serialization theorem places `driveEnd 0` between the two
drive starts. -/
theorem water_drives_serialized_witness :
    (0 : Nat) ≠ 1 ∧ LockEvent.driveEnd 0 ∈
      [LockEvent.driveEnd 0, LockEvent.release 0, LockEvent.acquire 1] :=
  ⟨by decide,
   water_drives_serialized [LockEvent.acquire 0]
     [LockEvent.driveEnd 0, LockEvent.release 0, LockEvent.acquire 1] [] 0 1
     (by decide)
     (MutexExec.cons (MutexStep.acquire _ 0 rfl rfl)
       (MutexExec.cons (MutexStep.driveStart _ 0 rfl rfl)
         (MutexExec.cons (MutexStep.driveEnd _ 0 rfl rfl)
           (MutexExec.cons (MutexStep.release _ 0 rfl rfl)
             (MutexExec.cons (MutexStep.acquire _ 1 rfl rfl)
               (MutexExec.cons (MutexStep.driveStart _ 1 rfl rfl)
                 (MutexExec.nil _)))))))⟩

/-- Counterexample to claim C1 as stated: on a concrete authenticated
request, the status handler does acquire the mutual-exclusion primitive
guarding the actuator (`state.gpio.lock().await` in main.rs), so it is
false that it never acquires the lock. -/
theorem status_handler_locks_cex :
    HandlerAction.lockAcquire ∈
      (status_handler (some API_SECRET_KEY) GpioController.Dummy).2 := by
  decide

/-- Claim C1 (amended): the status handler reads the actuator variant
via `is_dummy()` only after acquiring the actuation-exclusive mutex, and
releases it before responding; a GET /status issued concurrently with an
in-flight drive therefore waits on that mutex until the drive finishes. -/
theorem status_handler_locks (apiKey : Option String) (gpio : GpioController)
    (h : validate_api_key apiKey = .ok ()) :
    (status_handler apiKey gpio).2 =
      [HandlerAction.lockAcquire, HandlerAction.readIsDummy,
       HandlerAction.lockRelease] := by
  simp [status_handler, h]

/-- Witness for C1 (amended) at a concrete authenticated request. -/
theorem status_handler_locks_witness :
    validate_api_key (some "0228") = .ok () ∧
    (status_handler (some "0228") GpioController.Dummy).2 =
      [HandlerAction.lockAcquire, HandlerAction.readIsDummy,
       HandlerAction.lockRelease] :=
  ⟨by decide, status_handler_locks (some "0228") GpioController.Dummy (by decide)⟩

/-- Claim C3: a request to either endpoint whose X-API-KEY is missing or
wrong gets 401 with an error body, and the handler does nothing else: no
mutex interaction, no `run_motor`, the controller left in the shared
state is unchanged. -/
theorem unauthorized_short_circuits (apiKey : Option String)
    (payload : WaterRequest) (gpio : GpioController)
    (h : apiKey ≠ some API_SECRET_KEY) :
    (status_handler apiKey gpio).1 =
      .error (401, ⟨"Unauthorized: Invalid API Key"⟩) ∧
    (status_handler apiKey gpio).2 = [] ∧
    (water_handler apiKey payload gpio).1 =
      .error (401, ⟨"Unauthorized: Invalid API Key"⟩) ∧
    (water_handler apiKey payload gpio).2.1 = [] ∧
    (water_handler apiKey payload gpio).2.2 = gpio := by
  have hv : validate_api_key apiKey =
      .error (401, ⟨"Unauthorized: Invalid API Key"⟩) := by
    unfold validate_api_key
    cases apiKey with
    | none => rfl
    | some k =>
        have hk : ¬(k = API_SECRET_KEY) := fun hk => h (by rw [hk])
        simp [hk]
  refine ⟨?_, ?_, ?_, ?_, ?_⟩ <;> simp [status_handler, water_handler, hv]

/-- Witness for C3 at a concrete request with a wrong key. -/
theorem unauthorized_short_circuits_witness :
    (some "wrong" ≠ some API_SECRET_KEY) ∧
    ((status_handler (some "wrong") GpioController.Dummy).1 =
       .error (401, ⟨"Unauthorized: Invalid API Key"⟩) ∧
     (status_handler (some "wrong") GpioController.Dummy).2 = [] ∧
     (water_handler (some "wrong") ⟨"start"⟩ GpioController.Dummy).1 =
       .error (401, ⟨"Unauthorized: Invalid API Key"⟩) ∧
     (water_handler (some "wrong") ⟨"start"⟩ GpioController.Dummy).2.1 = [] ∧
     (water_handler (some "wrong") ⟨"start"⟩ GpioController.Dummy).2.2 =
       GpioController.Dummy) :=
  ⟨by decide,
   unauthorized_short_circuits (some "wrong") ⟨"start"⟩ GpioController.Dummy
     (by decide)⟩

/-- Claim C4: an authenticated actuation request whose action is not
"start" gets 400 with an error body, with no mutex interaction and the
controller unchanged. -/
theorem invalid_action_rejected (apiKey : Option String)
    (payload : WaterRequest) (gpio : GpioController)
    (hauth : validate_api_key apiKey = .ok ())
    (hact : payload.action ≠ "start") :
    (water_handler apiKey payload gpio).1 =
      .error (400,
        ⟨"Invalid request body. Expected \x7b\x27action\x27: \x27start\x27\x7d"⟩) ∧
    (water_handler apiKey payload gpio).2.1 = [] ∧
    (water_handler apiKey payload gpio).2.2 = gpio := by
  refine ⟨?_, ?_, ?_⟩ <;> simp [water_handler, hauth, hact]

/-- Witness for C4 at a concrete authenticated "stop" request. -/
theorem invalid_action_rejected_witness :
    (validate_api_key (some "0228") = .ok () ∧
     ("stop" : String) ≠ "start") ∧
    ((water_handler (some "0228") ⟨"stop"⟩ GpioController.Dummy).1 =
       .error (400,
         ⟨"Invalid request body. Expected \x7b\x27action\x27: \x27start\x27\x7d"⟩) ∧
     (water_handler (some "0228") ⟨"stop"⟩ GpioController.Dummy).2.1 = [] ∧
     (water_handler (some "0228") ⟨"stop"⟩ GpioController.Dummy).2.2 =
       GpioController.Dummy) :=
  ⟨⟨by decide, by decide⟩,
   invalid_action_rejected (some "0228") ⟨"stop"⟩ GpioController.Dummy
     (by decide) (by decide)⟩

/-- Claim C5: per-variant behaviour of `run_motor`.  The Real variant
emits set-high, a sleep of exactly the given duration, then set-low, and
succeeds with a descriptor noting real execution; the Dummy variant only
sleeps for the duration (no set-high or set-low ever appears among its
events) and succeeds with a descriptor noting simulated execution.  Both
variants return the same `Ok` result shape. -/
theorem run_motor_per_variant (level : Bool) (duration : Nat) :
    GpioController.run_motor (.Real level) duration =
      ⟨.Real false,
       .ok ("実機実行: " ++ toString duration ++ "秒間モーターを制御しました"),
       [.setHigh, .sleep duration, .setLow]⟩ ∧
    GpioController.run_motor .Dummy duration =
      ⟨.Dummy,
       .ok ("ダミー実行: " ++ toString duration ++ "秒間モーターを制御しました"),
       [.sleep duration]⟩ ∧
    GpioEvent.setHigh ∉ (GpioController.run_motor .Dummy duration).events ∧
    GpioEvent.setLow ∉ (GpioController.run_motor .Dummy duration).events ∧
    (GpioController.run_motor (.Real level) duration).result.isOk = true ∧
    (GpioController.run_motor .Dummy duration).result.isOk = true := by
  refine ⟨rfl, rfl, ?_, ?_, rfl, rfl⟩ <;> simp [GpioController.run_motor]

/-- Claim C6: construction never fails fatally.  For every probe outcome
(and with or without the gpio feature) `new` returns a controller, and
on any binding failure — `Gpio::new()` error or `gpio.get(pin)` error —
it returns the Dummy variant instead of propagating the error. -/
theorem new_falls_back_to_dummy (gpioFeature : Bool) (probe : GpioProbe)
    (pin : Nat) :
    (GpioController.new gpioFeature probe pin = .Real false ∨
     GpioController.new gpioFeature probe pin = .Dummy) ∧
    (probe ≠ .ok → GpioController.new gpioFeature probe pin = .Dummy) := by
  unfold GpioController.new
  cases gpioFeature <;> cases probe <;> simp

/-- Witness for C6 at a concrete failing probe. -/
theorem new_falls_back_to_dummy_witness :
    GpioProbe.pinFail "busy" ≠ GpioProbe.ok ∧
    GpioController.new true (GpioProbe.pinFail "busy") 17 =
      GpioController.Dummy :=
  ⟨by decide,
   (new_falls_back_to_dummy true (GpioProbe.pinFail "busy") 17).2 (by decide)⟩

/-- Claim C7: the Live/Dummy variant tag is an invariant.  `run_motor`
leaves the variant unchanged, and the controller the water handler
stores back into the shared state has the same variant as the one it
took out, for every request. -/
theorem variant_fixed (gpio : GpioController) (duration : Nat)
    (apiKey : Option String) (payload : WaterRequest) :
    (gpio.run_motor duration).ctrl.is_dummy = gpio.is_dummy ∧
    (water_handler apiKey payload gpio).2.2.is_dummy = gpio.is_dummy := by
  have h1 : (gpio.run_motor duration).ctrl.is_dummy = gpio.is_dummy := by
    cases gpio <;> rfl
  refine ⟨h1, ?_⟩
  unfold water_handler
  cases hv : validate_api_key apiKey with
  | error e => rfl
  | ok u =>
      cases u
      by_cases hact : payload.action = "start"
      · cases gpio <;>
          simp [hact, GpioController.run_motor, GpioController.is_dummy]
      · simp [hact]

/-- Claim C8: an authenticated status request is answered 200 with the
snapshot computed from the current variant and the static
configuration: status "Ready", the mode label chosen by `is_dummy()`
("DUMMY MODE" exactly when the controller is Dummy), and the configured
pin 17. -/
theorem status_snapshot (apiKey : Option String) (gpio : GpioController)
    (h : validate_api_key apiKey = .ok ()) :
    (status_handler apiKey gpio).1 =
      .ok ⟨"Ready", "Server is ready",
           if gpio.is_dummy then "DUMMY MODE" else "LIVE RPi.GPIO MODE",
           WATER_PUMP_PIN⟩ ∧
    ((if gpio.is_dummy then "DUMMY MODE" else "LIVE RPi.GPIO MODE") =
        "DUMMY MODE" ↔ gpio.is_dummy = true) ∧
    WATER_PUMP_PIN = 17 := by
  refine ⟨by simp [status_handler, h], ?_, rfl⟩
  cases gpio <;> simp [GpioController.is_dummy]

/-- Witness for C8 at a concrete authenticated request on a Real
controller. -/
theorem status_snapshot_witness :
    validate_api_key (some "0228") = .ok () ∧
    ((status_handler (some "0228") (GpioController.Real false)).1 =
       .ok ⟨"Ready", "Server is ready",
            if (GpioController.Real false).is_dummy then "DUMMY MODE"
            else "LIVE RPi.GPIO MODE",
            WATER_PUMP_PIN⟩ ∧
     ((if (GpioController.Real false).is_dummy then "DUMMY MODE"
       else "LIVE RPi.GPIO MODE") = "DUMMY MODE" ↔
        (GpioController.Real false).is_dummy = true) ∧
     WATER_PUMP_PIN = 17) :=
  ⟨by decide,
   status_snapshot (some "0228") (GpioController.Real false) (by decide)⟩

/-- Claim C9: `run_motor` returns `Ok` for every duration and both
variants, so for an authenticated, validated actuation request the water
handler answers 200 and its 500 driver-failure branch is unreachable. -/
theorem run_motor_never_errors (gpio : GpioController) (duration : Nat)
    (apiKey : Option String) (payload : WaterRequest)
    (hauth : validate_api_key apiKey = .ok ())
    (hact : payload.action = "start") :
    (∃ msg, (gpio.run_motor duration).result = .ok msg) ∧
    (∃ resp, (water_handler apiKey payload gpio).1 = .ok resp) ∧
    (∀ e, (water_handler apiKey payload gpio).1 ≠ .error (500, e)) := by
  refine ⟨?_, ?_, ?_⟩ <;>
    cases gpio <;>
      simp [water_handler, hauth, hact, GpioController.run_motor]

/-- Witness for C9 at a concrete authenticated "start" request. -/
theorem run_motor_never_errors_witness :
    (validate_api_key (some "0228") = .ok () ∧
     (("start" : String) = "start")) ∧
    ((∃ msg, (GpioController.Dummy.run_motor 5).result = .ok msg) ∧
     (∃ resp,
        (water_handler (some "0228") ⟨"start"⟩ GpioController.Dummy).1 =
          .ok resp) ∧
     (∀ e, (water_handler (some "0228") ⟨"start"⟩ GpioController.Dummy).1 ≠
        .error (500, e))) :=
  ⟨⟨by decide, rfl⟩,
   run_motor_never_errors GpioController.Dummy 5 (some "0228") ⟨"start"⟩
     (by decide) rfl⟩

/-- Claim C10: authentication precedes body validation.  A POST /water
request with a missing or wrong key and an action other than "start" is
answered 401, never 400: the handler checks the credential before it
examines the action field. -/
theorem auth_checked_before_action (apiKey : Option String)
    (payload : WaterRequest) (gpio : GpioController)
    (hkey : apiKey ≠ some API_SECRET_KEY)
    (hact : payload.action ≠ "start") :
    (water_handler apiKey payload gpio).1 =
      .error (401, ⟨"Unauthorized: Invalid API Key"⟩) ∧
    ∀ e, (water_handler apiKey payload gpio).1 ≠ .error (400, e) := by
  have hv : validate_api_key apiKey =
      .error (401, ⟨"Unauthorized: Invalid API Key"⟩) := by
    unfold validate_api_key
    cases apiKey with
    | none => rfl
    | some k =>
        have hk : ¬(k = API_SECRET_KEY) := fun hk => hkey (by rw [hk])
        simp [hk]
  refine ⟨by simp [water_handler, hv], ?_⟩
  intro e he
  rw [show (water_handler apiKey payload gpio).1 =
        .error (401, ⟨"Unauthorized: Invalid API Key"⟩) from by
      simp [water_handler, hv]] at he
  simp at he

/-- Witness for C10 at a concrete wrong-key "stop" request. -/
theorem auth_checked_before_action_witness :
    (some "bad" ≠ some API_SECRET_KEY ∧ ("stop" : String) ≠ "start") ∧
    ((water_handler (some "bad") ⟨"stop"⟩ GpioController.Dummy).1 =
       .error (401, ⟨"Unauthorized: Invalid API Key"⟩) ∧
     ∀ e, (water_handler (some "bad") ⟨"stop"⟩ GpioController.Dummy).1 ≠
        .error (400, e)) :=
  ⟨⟨by decide, by decide⟩,
   auth_checked_before_action (some "bad") ⟨"stop"⟩ GpioController.Dummy
     (by decide) (by decide)⟩
